import Mathlib

/-!
Verification of the DAFI telegram bot (src/index.js).

This file gives a shallow embedding of the parts of the program that the
specification's claims are about: the input validators (`validateAmount`,
`validatePhone`, `validateBusinessName`), the conversation message handler
(`bot.on('message')`), the public payment-link page handler
(`app.get('/pay/:paymentId')`) and the PayTabs settlement callback
(`app.post('/paytabs/callback')`), together with theorems settling each
claim.

Modelling conventions:
* JavaScript numbers are modelled as `Option ℚ`, with `none` standing for
  `NaN`/`undefined`; `jsAdd` propagates `none` the way `+` propagates `NaN`.
* Timestamps (`Date` values and `Date.now()`) are milliseconds as `ℕ`.
* The in-memory maps (`users`, `businesses`, `payments`) are not embedded as
  whole maps; each handler is a function of the entries it reads (the record
  looked up under the relevant key) and returns the entries it writes, which
  is exactly the per-key read/modify/write discipline of the source.
* Outbound `bot.sendMessage`/`bot.sendPhoto` calls are modelled by the
  `Reply`/`Notif` payloads the handler would emit; delivery itself is
  fire-and-forget in the source and carries no state.
-/

set_option maxRecDepth 8000

/-- The whitespace characters recognised by JavaScript: the class matched by
the regular-expression escape for whitespace, trimmed by `String.trim`, and
skipped at the front of the input by `parseFloat`. -/
def isJsWs (c : Char) : Bool :=
  c.toNat = 0x9 || c.toNat = 0xA || c.toNat = 0xB || c.toNat = 0xC ||
  c.toNat = 0xD || c.toNat = 0x20 || c.toNat = 0xA0 || c.toNat = 0x1680 ||
  (0x2000 ≤ c.toNat && c.toNat ≤ 0x200A) ||
  c.toNat = 0x2028 || c.toNat = 0x2029 || c.toNat = 0x202F ||
  c.toNat = 0x205F || c.toNat = 0x3000 || c.toNat = 0xFEFF

/-- Consume a run of decimal digits: returns the value of the digits read,
how many were read, and the rest of the input. -/
def takeDigits : List Char → ℕ → ℕ → ℕ × ℕ × List Char
  | c :: cs, v, n =>
    if c.isDigit then takeDigits cs (10 * v + (c.toNat - 48)) (n + 1)
    else (v, n, c :: cs)
  | [], v, n => (v, n, [])

/-- The unsigned decimal-mantissa part of a JavaScript float literal:
digits, digits followed by a dot and optional further digits, or a dot
followed by at least one digit.  The result is returned in exact scaled
form — the mantissa read so far is `num / 10 ^ fracLen`. -/
def parseMantissa (cs : List Char) : Option ((ℕ × ℕ) × List Char) :=
  match takeDigits cs 0 0 with
  | (i, ni, cs1) =>
    if 0 < ni then
      match cs1 with
      | '.' :: cs2 =>
        match takeDigits cs2 0 0 with
        | (f, nf, cs3) => some ((i * 10 ^ nf + f, nf), cs3)
      | _ => some ((i, 0), cs1)
    else
      match cs with
      | '.' :: cs2 =>
        match takeDigits cs2 0 0 with
        | (f, nf, cs3) =>
          if 0 < nf then some ((f, nf), cs3) else none
      | _ => none

/-- The optional exponent part of a JavaScript float literal: an exponent
marker, an optional sign, and at least one digit; when no digit follows the
marker the exponent part is not included in the longest match and the
original input is returned. -/
def parseExponent (cs : List Char) : ℤ × List Char :=
  match cs with
  | c :: cs1 =>
    if c = 'e' || c = 'E' then
      match cs1 with
      | '+' :: cs2 =>
        match takeDigits cs2 0 0 with
        | (e, k, cs3) => if 0 < k then ((e : ℤ), cs3) else (0, c :: cs1)
      | '-' :: cs2 =>
        match takeDigits cs2 0 0 with
        | (e, k, cs3) => if 0 < k then (-(e : ℤ), cs3) else (0, c :: cs1)
      | cs2 =>
        match takeDigits cs2 0 0 with
        | (e, k, cs3) => if 0 < k then ((e : ℤ), cs3) else (0, c :: cs1)
    else (0, c :: cs1)
  | [] => (0, [])

/-- A non-NaN JavaScript number as produced by `parseFloat`: a finite
rational or one of the two infinities. -/
inductive PFloat where
  | fin (q : ℚ)
  | posInf
  | negInf
deriving DecidableEq

/-- The exact rational value `± (num / 10 ^ fracLen) * 10 ^ e` of a parsed
float literal, assembled with integer arithmetic and one `mkRat`. -/
def ratOfParts (neg : Bool) (num : ℕ) (fracLen : ℕ) (e : ℤ) : ℚ :=
  if 0 ≤ e then
    mkRat (if neg then -((num * 10 ^ e.toNat : ℕ) : ℤ)
           else ((num * 10 ^ e.toNat : ℕ) : ℤ)) (10 ^ fracLen)
  else
    mkRat (if neg then -((num : ℕ) : ℤ) else ((num : ℕ) : ℤ))
      (10 ^ (fracLen + (-e).toNat))

/-- The body of a JavaScript float literal after the optional sign: the
literal `Infinity` or a mantissa with optional exponent, the sign already
known. -/
def parseAfterSign (neg : Bool) (cs : List Char) : Option (PFloat × List Char) :=
  if cs.take 8 = "Infinity".data then
    some (if neg then .negInf else .posInf, cs.drop 8)
  else
    match parseMantissa cs with
    | none => none
    | some ((num, fracLen), cs1) =>
      match parseExponent cs1 with
      | (e, cs2) => some (.fin (ratOfParts neg num fracLen e), cs2)

/-- A signed JavaScript float literal: an optional sign followed by the
body. -/
def parseSigned : List Char → Option (PFloat × List Char)
  | '+' :: cs => parseAfterSign false cs
  | '-' :: cs => parseAfterSign true cs
  | cs => parseAfterSign false cs

/-- JavaScript `parseFloat`: skip leading whitespace, then take the longest
float-literal prefix of what remains; `none` models the `NaN` result when no
prefix parses. -/
def jsParseFloat (s : String) : Option PFloat :=
  (parseSigned (s.data.dropWhile isJsWs)).map Prod.fst

/-- `jsParseFloat` restricted to finite results, as stored into a session's
stashed amount by the payment-amount step. -/
def jsParseFinite (s : String) : Option ℚ :=
  match jsParseFloat s with
  | some (.fin q) => some q
  | _ => none

/-- src/index.js `validateAmount`: `parseFloat` the input and require a
non-NaN value between 1 and 50000 inclusive.  A `NaN` fails the `!isNaN`
check; positive infinity fails the upper bound and negative infinity the
lower bound, so both map to `false` exactly as in the source. -/
def validateAmount (s : String) : Bool :=
  match jsParseFloat s with
  | some (.fin q) => decide (1 ≤ q) && decide (q ≤ 50000)
  | some .posInf => false
  | some .negInf => false
  | none => false

/-- `phone.replace` of every whitespace character with nothing, as applied
by `validatePhone` before the regular-expression test. -/
def stripJsWs (cs : List Char) : List Char := cs.filter (fun c => !isJsWs c)

/-- The anchored body of the phone regular expression after the optional
plus: one digit from 1 to 9 followed by between 1 and 14 further digits,
consuming the whole input. -/
def phoneDigits : List Char → Bool
  | c :: rest =>
    ('1' ≤ c && c ≤ '9') && decide (1 ≤ rest.length) &&
      decide (rest.length ≤ 14) && rest.all Char.isDigit
  | [] => false

/-- The anchored phone regular expression of src/index.js: an optional
leading plus then `phoneDigits`. -/
def jsPhoneRegexTest : List Char → Bool
  | '+' :: cs => phoneDigits cs
  | cs => phoneDigits cs

/-- src/index.js `validatePhone`: strip all whitespace from the input, then
test the anchored phone regular expression. -/
def validatePhone (s : String) : Bool := jsPhoneRegexTest (stripJsWs s.data)

/-- JavaScript string length counts UTF-16 code units: characters outside
the basic multilingual plane count twice. -/
def utf16Len (s : String) : ℕ :=
  (s.data.map (fun c => if c.toNat < 0x10000 then 1 else 2)).sum

/-- JavaScript `String.trim`: drop whitespace from both ends. -/
def jsTrim (s : String) : String :=
  ⟨((s.data.dropWhile isJsWs).reverse.dropWhile isJsWs).reverse⟩

/-- src/index.js `validateBusinessName`: the trimmed name must be 2 to 100
UTF-16 units long (the source's initial truthiness check on the name is
subsumed by the lower length bound). -/
def validateBusinessName (s : String) : Bool :=
  decide (2 ≤ utf16Len (jsTrim s)) && decide (utf16Len (jsTrim s) ≤ 100)

/-- Modelled from the spec: a string denotes the number `q` when, apart
from leading whitespace, it is in its entirety a signed decimal numeral of
value `q` — used to state what the claims mean by an input that denotes a
number, for comparison with `validateAmount`. -/
def specNumeral (s : String) : Option ℚ :=
  match parseSigned (s.data.dropWhile isJsWs) with
  | some (.fin q, []) => some q
  | _ => none

/-- Modelled from the spec: a block of 2 to 15 digits whose first digit is
nonzero, the digit part of the claimed phone shape. -/
def specPhoneDigits (ds : List Char) : Bool :=
  decide (2 ≤ ds.length) && decide (ds.length ≤ 15) && ds.all Char.isDigit &&
    (match ds.head? with
     | some d => decide (d ≠ '0')
     | none => false)

/-- Modelled from the spec: a string consisting of an optional leading plus
followed by 2 to 15 digits whose first digit is nonzero. -/
def specPhoneOk : List Char → Bool
  | '+' :: ds => specPhoneDigits ds
  | ds => specPhoneDigits ds

/-! ## The conversation data model -/

/-- The two supported locales of the `lang` table. -/
inductive Lang where
  | en
  | ar
deriving DecidableEq

/-- The values taken by `user.step` in src/index.js.  `start` is the value
set by `getUser` on first contact and `main` the value set when a flow
completes; no branch of the message handler distinguishes the two. -/
inductive Step where
  | start
  | register_name
  | register_phone
  | payment_amount
  | payment_description
  | main
deriving DecidableEq

/-- A user session: `user.language`, `user.step`, and the two keys the
source ever stores into `user.tempData` (`businessName` and `amount`),
each `none` when absent.  The `createdAt`/`lastActivity` bookkeeping of
`getUser` plays no part in any claim and is omitted. -/
structure Session where
  language : Lang
  step : Step
  tempBusinessName : Option String
  tempAmount : Option ℚ
deriving DecidableEq

/-- The values taken by `payment.status`. -/
inductive Status where
  | pending
  | completed
  | failed
  | expired
deriving DecidableEq

/-- A payment record as stored into the `payments` map.  `amount` is an
`Option ℚ` because the source copies `user.tempData.amount`, which is a
JavaScript number or `undefined`. -/
structure Payment where
  id : String
  merchantId : ℕ
  amount : Option ℚ
  description : String
  status : Status
  createdAt : ℕ
  expiresAt : ℕ
  transactionRef : Option String
  completedAt : Option ℕ
  failureReason : Option String
deriving DecidableEq

/-- A business profile as stored into the `businesses` map under the key
built from the owner's chat id.  `name` is an `Option String` because the
source copies `user.tempData.businessName`; the sales counters are
JavaScript numbers, so `Option ℚ` with `none` for `NaN`. -/
structure Business where
  name : Option String
  phone : String
  totalSales : Option ℚ
  todaySales : Option ℚ
  transactionCount : ℕ
deriving DecidableEq

/-- JavaScript addition on possibly-NaN numbers: any `NaN` operand makes
the result `NaN`. -/
def jsAdd : Option ℚ → Option ℚ → Option ℚ
  | some a, some b => some (a + b)
  | _, _ => none

/-! ## Lang literals from the `lang` table -/

/-- The Arabic language-selection literal offered by the language
keyboard. -/
def langLit_ar : String := "🇸🇦 العربية"

/-- The English language-selection literal offered by the language
keyboard. -/
def langLit_en : String := "🇺🇸 English"

/-- `lang[..].business_register`, the registration menu label of each
locale. -/
def l_business_register : Lang → String
  | .ar => "📝 تسجيل عملك التجاري"
  | .en => "📝 Register Business"

/-- `lang[..].create_payment`. -/
def l_create_payment : Lang → String
  | .ar => "💳 إنشاء رابط دفع"
  | .en => "💳 Create Payment Link"

/-- `lang[..].view_dashboard`. -/
def l_view_dashboard : Lang → String
  | .ar => "📊 لوحة المبيعات"
  | .en => "📊 Sales Dashboard"

/-- `lang[..].settings`. -/
def l_settings : Lang → String
  | .ar => "⚙️ الإعدادات"
  | .en => "⚙️ Settings"

/-- `lang[..].help`. -/
def l_help : Lang → String
  | .ar => "❓ المساعدة"
  | .en => "❓ Help"

/-! ## The message handler -/

/-- The environment a single run of the message handler reads besides the
session: the business stored under this chat's key, the payments map's
values, the fresh identifier `generatePaymentId` would return, the current
time, the configured webhook base URL, and the QR encoder's result
(`none` when `generateQR` fails and returns null). -/
structure MsgCtx where
  business : Option Business
  payments : List Payment
  freshId : String
  now : ℕ
  webhookUrl : String
  qr : Option String
deriving DecidableEq

/-- The outbound reply a run of the message handler produces, named after
the branch that sends it.  `paymentCreated` carries the shareable link and
whether it went out as a QR photo (`true`) or as plain text (`false`);
both deliveries carry the same link. -/
inductive Reply where
  | noReply
  | welcome (lg : Lang)
  | promptBusinessName (lg : Lang)
  | invalidBusinessName
  | promptBusinessPhone (lg : Lang)
  | invalidPhone (lg : Lang)
  | registered (lg : Lang)
  | registerFirst (lg : Lang)
  | promptAmount (lg : Lang)
  | invalidAmount (lg : Lang)
  | promptDescription (lg : Lang)
  | paymentCreated (link : String) (asPhoto : Bool)
  | dashboard (totalSales todaySales : Option ℚ) (pendingCount txCount : ℕ)
  | helpView (lg : Lang)
  | settingsView
deriving DecidableEq

/-- What one run of the message handler writes: the updated session, a
payment record newly stored into the payments map (if any), a business
profile stored under this chat's key (if any), and the reply sent. -/
structure MsgResult where
  session : Session
  newPayment : Option Payment
  newBusiness : Option Business
  reply : Reply
deriving DecidableEq

/-- The calendar-day equivalence used by the dashboard's
`toDateString` comparison, modelled as the day number of the timestamp. -/
def jsDay (t : ℕ) : ℕ := t / 86400000

/-- The body of `bot.on('message')` in src/index.js, transcribed branch by
branch in source order: the empty/command guard, the two language literals,
the registration menu label, the `register_name` and `register_phone`
steps, the create-payment menu label, the `payment_amount` and
`payment_description` steps, then the dashboard, help and settings menu
labels.  Times are `ℕ` milliseconds; the payment's `createdAt` and
`expiresAt` are both taken at `ctx.now`, 24 hours apart. -/
def onMessage (chatId : ℕ) (s : Session) (text : String) (ctx : MsgCtx) :
    MsgResult :=
  if text = "" ∨ text.data.head? = some '/' then ⟨s, none, none, .noReply⟩
  else if text = langLit_ar then
    ⟨{ s with language := .ar }, none, none, .welcome .ar⟩
  else if text = langLit_en then
    ⟨{ s with language := .en }, none, none, .welcome .en⟩
  else if text = l_business_register s.language then
    ⟨{ s with step := .register_name }, none, none,
     .promptBusinessName s.language⟩
  else if s.step = Step.register_name then
    if validateBusinessName text = false then
      ⟨s, none, none, .invalidBusinessName⟩
    else
      ⟨{ s with tempBusinessName := some (jsTrim text),
                step := .register_phone }, none, none,
       .promptBusinessPhone s.language⟩
  else if s.step = Step.register_phone then
    if validatePhone text = false then ⟨s, none, none, .invalidPhone s.language⟩
    else
      ⟨{ s with step := .main, tempBusinessName := none, tempAmount := none },
       none,
       some { name := s.tempBusinessName, phone := jsTrim text,
              totalSales := some 0, todaySales := some 0,
              transactionCount := 0 },
       .registered s.language⟩
  else if text = l_create_payment s.language then
    if ctx.business.isSome = false then
      ⟨s, none, none, .registerFirst s.language⟩
    else ⟨{ s with step := .payment_amount }, none, none,
          .promptAmount s.language⟩
  else if s.step = Step.payment_amount then
    if validateAmount text = false then ⟨s, none, none, .invalidAmount s.language⟩
    else
      ⟨{ s with tempAmount := jsParseFinite text,
                step := .payment_description }, none, none,
       .promptDescription s.language⟩
  else if s.step = Step.payment_description then
    ⟨{ s with step := .main, tempBusinessName := none, tempAmount := none },
     some { id := ctx.freshId, merchantId := chatId, amount := s.tempAmount,
            description := jsTrim text, status := .pending,
            createdAt := ctx.now, expiresAt := ctx.now + 24 * 60 * 60 * 1000,
            transactionRef := none, completedAt := none,
            failureReason := none },
     none,
     .paymentCreated (ctx.webhookUrl ++ "/pay/" ++ ctx.freshId) ctx.qr.isSome⟩
  else if text = l_view_dashboard s.language then
    match ctx.business with
    | none => ⟨s, none, none, .registerFirst s.language⟩
    | some b =>
      let userPayments :=
        ctx.payments.filter (fun p => decide (p.merchantId = chatId))
      let totalSales :=
        (userPayments.filter (fun p => decide (p.status = Status.completed))).foldl
          (fun acc p => jsAdd acc p.amount) (some 0)
      let todaySales :=
        (userPayments.filter (fun p =>
            decide (p.status = Status.completed) &&
            decide (jsDay p.createdAt = jsDay ctx.now))).foldl
          (fun acc p => jsAdd acc p.amount) (some 0)
      let pendingCount :=
        (userPayments.filter (fun p => decide (p.status = Status.pending))).length
      ⟨s, none, none,
       .dashboard totalSales todaySales pendingCount b.transactionCount⟩
  else if text = l_help s.language then ⟨s, none, none, .helpView s.language⟩
  else if text = l_settings s.language then ⟨s, none, none, .settingsView⟩
  else ⟨s, none, none, .noReply⟩

/-! ## The settlement callback -/

/-- The `payment_result` object of a PayTabs callback body; either field
may be absent. -/
structure PaymentResultObj where
  response_status : Option String
  response_message : Option String
deriving DecidableEq

/-- The fields the callback handler destructures from `req.body`. -/
structure CallbackBody where
  tran_ref : Option String
  cart_id : String
  payment_result : Option PaymentResultObj
deriving DecidableEq

/-- Which of the two merchant notifications the callback sends. -/
inductive Notif where
  | success
  | failure
deriving DecidableEq

/-- What the callback handler produces: a not-found response, or the
payment record written back, the business profile written back (when one
exists under the merchant's key), and the notification sent. -/
inductive CallbackOut where
  | notFound
  | ok (payment : Payment) (business : Option Business) (notif : Notif)
deriving DecidableEq

/-- The success test of the callback:
`payment_result && payment_result.response_status === 'A'`. -/
def isSuccessBody (body : CallbackBody) : Bool :=
  match body.payment_result with
  | some pr => decide (pr.response_status = some "A")
  | none => false

/-- The failure reason stored on the failure branch:
`payment_result?.response_message || 'Unknown error'` — an absent object,
an absent message, and an empty (hence falsy) message all fall back to the
default. -/
def callbackFailMsg (body : CallbackBody) : String :=
  match body.payment_result with
  | some pr =>
    match pr.response_message with
    | some m => if m = "" then "Unknown error" else m
    | none => "Unknown error"
  | none => "Unknown error"

/-- The body of `app.post('/paytabs/callback')` in src/index.js, given the
payment found under `cart_id` and the business found under the merchant's
key.  Note the source applies both branches to whatever record it finds —
there is no check that the record's status is still `pending`. -/
def paytabsCallback (body : CallbackBody) (payment : Option Payment)
    (business : Option Business) (now : ℕ) : CallbackOut :=
  match payment with
  | none => .notFound
  | some p =>
    if isSuccessBody body then
      .ok { p with status := .completed, transactionRef := body.tran_ref,
                   completedAt := some now }
         (business.map fun b =>
           { b with totalSales := jsAdd b.totalSales p.amount,
                    todaySales := jsAdd b.todaySales p.amount,
                    transactionCount := b.transactionCount + 1 })
         .success
    else
      .ok { p with status := .failed,
                   failureReason := some (callbackFailMsg body) }
         business .failure

/-! ## The public payment-link page -/

/-- The outcome of `createPayTabsPayment` as seen by the link handler: a
response carrying an optional `redirect_url`, or a thrown error. -/
inductive GatewayOutcome where
  | ok (redirect_url : Option String)
  | fail
deriving DecidableEq

/-- The page rendered to a public visitor of a payment link. -/
inductive Disposition where
  | notFoundPage
  | alreadyProcessed (st : Status)
  | expiredPage
  | demoPage
  | redirect (url : String)
  | paymentErrorPage
  | unavailablePage
deriving DecidableEq

/-- The body of `app.get('/pay/:paymentId')` in src/index.js, given the
payment found under the requested identifier: returns the record as left
in the payments map together with the rendered disposition.  The source's
`payment.expiresAt && ...` truthiness test always passes because a `Date`
object is truthy, so only the strict comparison with the current time
remains. -/
def paymentLinkHandler (payment : Option Payment) (now : ℕ)
    (paytabsConfigured : Bool) (gw : GatewayOutcome) :
    Option Payment × Disposition :=
  match payment with
  | none => (none, .notFoundPage)
  | some p =>
    if p.status ≠ Status.pending then (some p, .alreadyProcessed p.status)
    else if p.expiresAt < now then
      (some { p with status := .expired }, .expiredPage)
    else if paytabsConfigured = false then (some p, .demoPage)
    else
      match gw with
      | .ok (some url) => (some p, .redirect url)
      | .ok none => (some p, .paymentErrorPage)
      | .fail => (some p, .unavailablePage)

/-! ## Concrete fixtures used by counterexamples and witnesses -/

/-- A message-handler environment with no registered business, no payments,
a fixed fresh identifier and clock, and a failing QR encoder. -/
def ctx0 : MsgCtx :=
  { business := none, payments := [], freshId := "DAFI_1_aa", now := 1000,
    webhookUrl := "https://dafi.example", qr := none }

/-- A pending payment record as created by the payment flow. -/
def pend0 : Payment :=
  { id := "DAFI_1_aa", merchantId := 1, amount := some 250,
    description := "Coffee order", status := .pending, createdAt := 1000,
    expiresAt := 87400000, transactionRef := none, completedAt := none,
    failureReason := none }

/-- A freshly registered business profile. -/
def biz0 : Business :=
  { name := some "Acme Foods", phone := "+966501234567",
    totalSales := some 0, todaySales := some 0, transactionCount := 0 }

/-- A success callback body for `pend0`. -/
def bodyA : CallbackBody :=
  { tran_ref := some "TR1", cart_id := "DAFI_1_aa",
    payment_result := some { response_status := some "A",
                             response_message := none } }

/-- A declined callback body for `pend0`. -/
def bodyDecl : CallbackBody :=
  { tran_ref := some "TR3", cart_id := "DAFI_1_aa",
    payment_result := some { response_status := some "D",
                             response_message := some "Declined" } }

/-- `pend0` after a first successful settlement. -/
def pDone : Payment :=
  { pend0 with status := .completed, transactionRef := some "TR1",
               completedAt := some 5000 }

/-- `biz0` after a first successful settlement of `pend0`. -/
def bizAfter : Business :=
  { biz0 with totalSales := some 250, todaySales := some 250,
              transactionCount := 1 }

/-- A replayed success callback for the already settled `pend0`, carrying a
different transaction reference. -/
def bodyReplay : CallbackBody :=
  { tran_ref := some "TR2", cart_id := "DAFI_1_aa",
    payment_result := some { response_status := some "A",
                             response_message := none } }

/-! ## C1 -/

/-- C1 (code bug): processing a further settlement notification for a
record whose status is already terminal does NOT leave the record and the
business counters unchanged — the callback handler never checks that the
record is still `pending`.  A replayed success notification for a
`completed` record overwrites its transaction reference and completion
timestamp and increments all three business counters a second time, and a
conflicting declined notification flips the terminal status `completed`
to `failed`. -/
theorem settlement_replay_mutates_terminal_record :
    paytabsCallback bodyReplay (some pDone) (some bizAfter) 9000 =
      .ok { pDone with transactionRef := some "TR2", completedAt := some 9000 }
         (some { bizAfter with totalSales := some 500, todaySales := some 500,
                               transactionCount := 2 })
         .success ∧
    paytabsCallback bodyDecl (some pDone) (some bizAfter) 9000 =
      .ok { pDone with status := .failed, failureReason := some "Declined" }
         (some bizAfter) .failure := by
  have h500 : ((250 : ℚ) + 250) = 500 := by norm_num
  constructor
  · simp [paytabsCallback, isSuccessBody, bodyReplay, jsAdd, pDone, pend0,
          bizAfter, biz0, h500]
  · simp [paytabsCallback, isSuccessBody, bodyDecl, jsAdd, pDone, pend0,
          bizAfter, biz0, callbackFailMsg]

/-! ## C2 -/

/-- C2: for a pending record with a well-defined amount, a success-outcome
settlement notification settles it: status `completed`, the gateway
transaction reference and a completion timestamp are stored, and the
business profile found under the merchant's key — when one exists — has
its all-time total and today total increased by the amount and its
transaction count increased by one; when no profile exists (`b = none`)
the ledger mutation still happens and the handler still returns normally. -/
theorem callback_success_settles_pending
    (body : CallbackBody) (p : Payment) (b : Option Business) (now : ℕ) (a : ℚ)
    (_hp : p.status = Status.pending) (hs : isSuccessBody body = true)
    (ha : p.amount = some a) :
    paytabsCallback body (some p) b now =
      .ok { p with status := .completed, transactionRef := body.tran_ref,
                   completedAt := some now }
         (b.map fun bz =>
           { bz with totalSales := jsAdd bz.totalSales (some a),
                     todaySales := jsAdd bz.todaySales (some a),
                     transactionCount := bz.transactionCount + 1 })
         .success := by
  unfold paytabsCallback
  simp [hs, ha]

/-- Witness for C2 at a concrete pending payment and business. -/
theorem callback_success_settles_pending_witness :
    paytabsCallback bodyA (some pend0) (some biz0) 5000 =
      .ok { pend0 with status := .completed, transactionRef := some "TR1",
                       completedAt := some 5000 }
         (some { biz0 with totalSales := jsAdd biz0.totalSales (some 250),
                           todaySales := jsAdd biz0.todaySales (some 250),
                           transactionCount := 1 })
         .success :=
  callback_success_settles_pending bodyA pend0 (some biz0) 5000 250 rfl rfl rfl

/-! ## C10 -/

/-- C10: a callback whose body has no `payment_result` object, or whose
`payment_result.response_status` is anything other than the literal `A`,
takes the single failure branch: a referenced pending record is marked
`failed` with the provided `response_message` or the default reason, and
the business profile is returned unchanged — there is no separate handling
for malformed outcome signals. -/
theorem callback_non_success_marks_failed
    (body : CallbackBody) (p : Payment) (b : Option Business) (now : ℕ)
    (_hp : p.status = Status.pending)
    (hf : body.payment_result = none ∨
          ∃ pr, body.payment_result = some pr ∧ pr.response_status ≠ some "A") :
    paytabsCallback body (some p) b now =
      .ok { p with status := .failed,
                   failureReason := some (callbackFailMsg body) }
         b .failure := by
  have hs : isSuccessBody body = false := by
    unfold isSuccessBody
    rcases hf with h | ⟨pr, hpr, hne⟩
    · simp [h]
    · simp [hpr, hne]
  unfold paytabsCallback
  simp [hs]

/-- Witness for C10 at a concrete declined callback. -/
theorem callback_non_success_marks_failed_witness :
    paytabsCallback bodyDecl (some pend0) (some biz0) 7000 =
      .ok { pend0 with status := .failed, failureReason := some "Declined" }
         (some biz0) .failure :=
  callback_non_success_marks_failed bodyDecl pend0 (some biz0) 7000 rfl
    (Or.inr ⟨_, rfl, by decide⟩)

/-! ## C9 -/

/-- C9: the public link page's only possible mutation of a found payment
record is the status transition `pending → expired`, applied exactly when
the record is pending and the visit is past its expiry timestamp, touching
no other field; in every other case — non-pending record, unexpired
pending record on the demo, redirect, gateway-error or thrown-error path —
the record is returned unchanged, and an unknown identifier stays
unknown. -/
theorem payment_link_frame_property
    (p : Payment) (now : ℕ) (cfg : Bool) (gw : GatewayOutcome) :
    (paymentLinkHandler (some p) now cfg gw).1 =
      some (if p.status = Status.pending ∧ p.expiresAt < now
            then { p with status := Status.expired } else p) ∧
    (paymentLinkHandler none now cfg gw).1 = none := by
  constructor
  · unfold paymentLinkHandler
    by_cases hst : p.status = Status.pending
    · by_cases hexp : p.expiresAt < now
      · simp [hst, hexp]
      · by_cases hcfg : cfg = false
        · simp [hst, hexp, hcfg]
        · cases gw with
          | ok u => cases u <;> simp [hst, hexp, hcfg]
          | fail => simp [hst, hexp, hcfg]
    · simp [hst]
  · rfl

/-! ## C7 -/

/-- C7 (counterexample): amount validation is not equivalent to "the input
denotes a number in [1, 50000]" — the string `100abc` denotes no number
(it is not a numeral), yet validation accepts it, because `parseFloat`
reads the longest numeric prefix and ignores the rest. -/
theorem amount_validation_accepts_non_numeral :
    ¬ (validateAmount "100abc" = true ↔
       ∃ q : ℚ, specNumeral "100abc" = some q ∧ 1 ≤ q ∧ q ≤ 50000) := by
  intro hiff
  obtain ⟨q, hq, -⟩ := hiff.mp (by decide)
  have hnone : specNumeral "100abc" = none := by decide
  rw [hnone] at hq
  exact Option.noConfusion hq

/-- C7 (amended): on every input that does denote a number `q` — a string
that is in its entirety a signed decimal numeral, apart from leading
whitespace — amount validation accepts exactly when `1 ≤ q ≤ 50000`;
inputs with trailing non-numeric characters can additionally be accepted
on the strength of their numeric prefix alone. -/
theorem amount_validation_on_numerals (s : String) (q : ℚ)
    (h : specNumeral s = some q) :
    validateAmount s = true ↔ (1 ≤ q ∧ q ≤ 50000) := by
  unfold specNumeral at h
  unfold validateAmount jsParseFloat
  rcases hp : parseSigned (s.data.dropWhile isJsWs) with _ | ⟨pf, rest⟩
  · rw [hp] at h
    exact absurd h (by simp)
  · rw [hp] at h
    cases pf with
    | fin q0 =>
      cases rest with
      | nil =>
        simp only [Option.map_some'] at h ⊢
        simp only [Option.some.injEq] at h
        subst h
        simp [Bool.and_eq_true, decide_eq_true_eq]
      | cons c t => simp at h
    | posInf => simp at h
    | negInf => simp at h

/-- Witness for C7 at the numeral 250, which is in range and accepted. -/
theorem amount_validation_on_numerals_witness :
    validateAmount "250" = true :=
  (amount_validation_on_numerals "250" 250 (by decide)).mpr (by decide)

/-! ## C8 -/

/-- A character is between 1 and 9 exactly when it is a digit other than
0, connecting the regular expression's leading character class with the
claim's wording. -/
theorem nonzero_digit_char (c : Char) :
    ('1' ≤ c ∧ c ≤ '9') ↔ (c.isDigit = true ∧ c ≠ '0') := by
  have hne : (c ≠ '0') ↔ c.val.toBitVec.toNat ≠ 48 := by
    constructor
    · intro h hv
      exact h (Char.ext (UInt32.ext (by simpa using hv)))
    · intro h hv
      subst hv
      exact h rfl
  simp only [Bool.and_eq_true, Char.isDigit, Char.le_def, UInt32.le_def,
    BitVec.le_def, decide_eq_true_eq, hne]
  change (49 ≤ _ ∧ _ ≤ 57) ↔ ((48 ≤ _ ∧ _ ≤ 57) ∧ _)
  omega

/-- The regular expression's digit body and the claim's digit shape agree
on every character list. -/
theorem phoneDigits_iff (ds : List Char) :
    phoneDigits ds = true ↔ specPhoneDigits ds = true := by
  cases ds with
  | nil => simp [phoneDigits, specPhoneDigits]
  | cons c r =>
    simp only [phoneDigits, specPhoneDigits, Bool.and_eq_true,
      decide_eq_true_eq, List.all_cons, List.length_cons, List.head?_cons]
    constructor
    · rintro ⟨⟨⟨hc, h1⟩, h2⟩, hall⟩
      obtain ⟨hd, h0⟩ := (nonzero_digit_char c).mp hc
      exact ⟨⟨⟨by omega, by omega⟩, hd, hall⟩, h0⟩
    · rintro ⟨⟨⟨h1, h2⟩, hd, hall⟩, h0⟩
      exact ⟨⟨⟨(nonzero_digit_char c).mpr ⟨hd, h0⟩, by omega⟩, by omega⟩, hall⟩

/-- C8 (counterexample): phone validation is not equivalent to "the input
consists of an optional leading plus and 2 to 15 digits with nonzero first
digit" — the string `1 2` contains a space, so it does not have that
shape, yet validation accepts it because all whitespace is removed before
the regular-expression test. -/
theorem phone_validation_accepts_inner_space :
    ¬ (validatePhone "1 2" = true ↔ specPhoneOk ("1 2").data = true) := by
  decide

/-- C8 (amended): phone validation accepts an input exactly when, after
removing every whitespace character, what remains consists of an optional
leading plus followed by 2 to 15 digits whose first digit is nonzero. -/
theorem phone_validation_after_space_removal (s : String) :
    validatePhone s = true ↔ specPhoneOk (stripJsWs s.data) = true := by
  unfold validatePhone
  rcases hc : stripJsWs s.data with _ | ⟨c, r⟩
  · simp [jsPhoneRegexTest, specPhoneOk, phoneDigits, specPhoneDigits]
  · by_cases hp : c = '+'
    · subst hp
      exact phoneDigits_iff r
    · have hl : jsPhoneRegexTest (c :: r) = phoneDigits (c :: r) := by
        unfold jsPhoneRegexTest
        split
        · rename_i heq
          injection heq with h1 _
          exact absurd h1 hp
        · rfl
      have hr : specPhoneOk (c :: r) = specPhoneDigits (c :: r) := by
        unfold specPhoneOk
        split
        · rename_i heq
          injection heq with h1 _
          exact absurd h1 hp
        · rfl
      rw [hl, hr]
      exact phoneDigits_iff (c :: r)

/-! ## C5 -/

/-- C5 (counterexample): not every input failing phone validation is
answered with an invalid-phone prompt in the `register_phone` step — the
registration menu label fails phone validation, yet it is recognised by
its global trigger first: the step changes to `register_name` and the
business-name prompt is sent instead, with no invalid-phone prompt. -/
theorem register_label_overrides_phone_step :
    validatePhone "📝 Register Business" = false ∧
    (onMessage 1 ⟨Lang.en, Step.register_phone, some "Acme Foods", none⟩
      "📝 Register Business" ctx0).session.step = Step.register_name ∧
    (onMessage 1 ⟨Lang.en, Step.register_phone, some "Acme Foods", none⟩
      "📝 Register Business" ctx0).reply = Reply.promptBusinessName .en ∧
    (onMessage 1 ⟨Lang.en, Step.register_phone, some "Acme Foods", none⟩
      "📝 Register Business" ctx0).newBusiness = none := by
  decide

/-- C5 (amended): in the `register_phone` step, for any input that is not
one of the two language literals and not the active locale's registration
label: failing phone validation re-prompts with the invalid-phone message
and leaves session and stores untouched, while passing it stores a
business profile with the stashed name, the trimmed phone and zeroed
counters, clears the input buffer, and returns the step to the menu state
with a success confirmation. -/
theorem register_phone_step_behavior
    (chatId : ℕ) (s : Session) (text : String) (ctx : MsgCtx)
    (hstep : s.step = Step.register_phone)
    (h1 : text ≠ "") (h2 : text.data.head? ≠ some '/')
    (h3 : text ≠ langLit_ar) (h4 : text ≠ langLit_en)
    (h5 : text ≠ l_business_register s.language) :
    (validatePhone text = false →
       onMessage chatId s text ctx = ⟨s, none, none, .invalidPhone s.language⟩) ∧
    (validatePhone text = true →
       onMessage chatId s text ctx =
         ⟨{ s with step := .main, tempBusinessName := none, tempAmount := none },
          none,
          some { name := s.tempBusinessName, phone := jsTrim text,
                 totalSales := some 0, todaySales := some 0,
                 transactionCount := 0 },
          .registered s.language⟩) := by
  unfold onMessage
  rw [if_neg (by simp [h1, h2]), if_neg h3, if_neg h4, if_neg h5,
      if_neg (by simp [hstep]), if_pos hstep]
  constructor
  · intro hv
    rw [if_pos hv]
  · intro hv
    rw [if_neg (by simp [hv])]

/-- Witness for C5 at the invalid input of the specification's scenario. -/
theorem register_phone_step_behavior_witness :
    onMessage 1 ⟨Lang.en, Step.register_phone, some "Acme Foods", none⟩
      "notaphone" ctx0 =
    ⟨⟨Lang.en, Step.register_phone, some "Acme Foods", none⟩, none, none,
     .invalidPhone .en⟩ :=
  (register_phone_step_behavior 1
    ⟨Lang.en, Step.register_phone, some "Acme Foods", none⟩ "notaphone" ctx0
    rfl (by decide) (by decide) (by decide) (by decide) (by decide)).1
    (by decide)

/-! ## C3 -/

/-- C3 (counterexample): leaving a flow step without completing the flow
does not always empty the input buffer — a session in
`payment_description` holding a stashed amount that receives the
registration menu label leaves the payment flow for `register_name`
(a step of a different flow) with no payment created, and the stashed
amount of 250 is still present. -/
theorem stale_amount_survives_flow_abort :
    (onMessage 1 ⟨Lang.en, Step.payment_description, none, some 250⟩
      "📝 Register Business" ctx0).session.step = Step.register_name ∧
    (onMessage 1 ⟨Lang.en, Step.payment_description, none, some 250⟩
      "📝 Register Business" ctx0).newPayment = none ∧
    (onMessage 1 ⟨Lang.en, Step.payment_description, none, some 250⟩
      "📝 Register Business" ctx0).session.tempAmount = some 250 := by
  decide

/-- C3 (amended): the input buffer is emptied exactly when a flow
completes — a valid phone received in `register_phone`, or any
description received in `payment_description`, provided the message is
not one of the globally recognised triggers (the language literals, the
registration label, the create-payment label) that pre-empt the step
branches; aborting a flow through such a trigger preserves the buffer, as
the counterexample shows. -/
theorem buffer_cleared_on_flow_completion
    (chatId : ℕ) (s : Session) (text : String) (ctx : MsgCtx)
    (h1 : text ≠ "") (h2 : text.data.head? ≠ some '/')
    (h3 : text ≠ langLit_ar) (h4 : text ≠ langLit_en)
    (h5 : text ≠ l_business_register s.language)
    (h6 : text ≠ l_create_payment s.language)
    (hdone : (s.step = Step.register_phone ∧ validatePhone text = true) ∨
             s.step = Step.payment_description) :
    (onMessage chatId s text ctx).session.tempBusinessName = none ∧
    (onMessage chatId s text ctx).session.tempAmount = none := by
  unfold onMessage
  rw [if_neg (by simp [h1, h2]), if_neg h3, if_neg h4, if_neg h5]
  rcases hdone with ⟨hstep, hv⟩ | hstep
  · rw [if_neg (by simp [hstep]), if_pos hstep, if_neg (by simp [hv])]
    exact ⟨rfl, rfl⟩
  · rw [if_neg (by simp [hstep]), if_neg (by simp [hstep]), if_neg h6,
        if_neg (by simp [hstep]), if_pos hstep]
    exact ⟨rfl, rfl⟩

/-- Witness for C3 at a registration-flow completion. -/
theorem buffer_cleared_on_flow_completion_witness :
    (onMessage 1 ⟨Lang.en, Step.register_phone, some "Acme Foods", none⟩
      "+966501234567" ctx0).session.tempBusinessName = none ∧
    (onMessage 1 ⟨Lang.en, Step.register_phone, some "Acme Foods", none⟩
      "+966501234567" ctx0).session.tempAmount = none :=
  buffer_cleared_on_flow_completion 1
    ⟨Lang.en, Step.register_phone, some "Acme Foods", none⟩ "+966501234567"
    ctx0 (by decide) (by decide) (by decide) (by decide) (by decide)
    (by decide) (Or.inl ⟨rfl, by decide⟩)

/-! ## C4 -/

/-- C4 (counterexample): not every text received in the
`payment_description` step creates a payment record — a language literal
is recognised by its global trigger first, so no record is created and
the step does not change (in particular it does not return to the menu
state). -/
theorem language_literal_skips_payment_creation :
    (onMessage 1 ⟨Lang.en, Step.payment_description, none, some 250⟩
      langLit_en ctx0).newPayment = none ∧
    (onMessage 1 ⟨Lang.en, Step.payment_description, none, some 250⟩
      langLit_en ctx0).session.step = Step.payment_description := by
  decide

/-- C4 (amended): in the `payment_description` step with a stashed amount,
any text other than the two language literals and the active locale's
registration and create-payment labels creates a payment record with the
fresh identifier, status `pending`, the stashed amount, the trimmed text
as description, creation now and expiry exactly 24 hours later; the
buffer is cleared, the step returns to the menu state, and the reply
carries the shareable link — as a QR photo when the encoder succeeded and
as plain text with the same link when it failed — so a QR failure never
aborts the flow. -/
theorem payment_description_creates_record
    (chatId : ℕ) (s : Session) (text : String) (ctx : MsgCtx) (a : ℚ)
    (hstep : s.step = Step.payment_description)
    (ha : s.tempAmount = some a)
    (h1 : text ≠ "") (h2 : text.data.head? ≠ some '/')
    (h3 : text ≠ langLit_ar) (h4 : text ≠ langLit_en)
    (h5 : text ≠ l_business_register s.language)
    (h6 : text ≠ l_create_payment s.language) :
    onMessage chatId s text ctx =
      ⟨{ s with step := .main, tempBusinessName := none, tempAmount := none },
       some { id := ctx.freshId, merchantId := chatId, amount := some a,
              description := jsTrim text, status := .pending,
              createdAt := ctx.now, expiresAt := ctx.now + 24 * 60 * 60 * 1000,
              transactionRef := none, completedAt := none,
              failureReason := none },
       none,
       .paymentCreated (ctx.webhookUrl ++ "/pay/" ++ ctx.freshId)
         ctx.qr.isSome⟩ := by
  unfold onMessage
  rw [if_neg (by simp [h1, h2]), if_neg h3, if_neg h4, if_neg h5,
      if_neg (by simp [hstep]), if_neg (by simp [hstep]), if_neg h6,
      if_neg (by simp [hstep]), if_pos hstep, ha]

/-- Witness for C4 at the specification's scenario B, with a failing QR
encoder (`ctx0.qr = none`): the record is still created and the link goes
out as text. -/
theorem payment_description_creates_record_witness :
    onMessage 1 ⟨Lang.en, Step.payment_description, none, some 250⟩
      "Coffee order" ctx0 =
    ⟨⟨Lang.en, Step.main, none, none⟩,
     some { id := "DAFI_1_aa", merchantId := 1, amount := some 250,
            description := "Coffee order", status := .pending,
            createdAt := 1000, expiresAt := 1000 + 24 * 60 * 60 * 1000,
            transactionRef := none, completedAt := none,
            failureReason := none },
     none, .paymentCreated "https://dafi.example/pay/DAFI_1_aa" false⟩ :=
  payment_description_creates_record 1
    ⟨Lang.en, Step.payment_description, none, some 250⟩ "Coffee order" ctx0
    250 rfl rfl (by decide) (by decide) (by decide) (by decide) (by decide)
    (by decide)

/-! ## C6 -/

/-- C6 (counterexample): selecting a language does not transition the
session to the menu state — a session mid-flow in `payment_amount` that
sends the English literal gets its locale persisted but keeps the step
`payment_amount`. -/
theorem language_selection_keeps_step :
    (onMessage 1 ⟨Lang.ar, Step.payment_amount, none, none⟩ langLit_en
      ctx0).session = ⟨Lang.en, Step.payment_amount, none, none⟩ := by
  decide

/-- C6 (amended): each of the two language literals persists the matching
locale and emits that locale's welcome with the main menu while leaving
the step (and the rest of the session) unchanged; and any input in the
`start` step that matches no recognised trigger produces no transition,
no store write and no reply at all. -/
theorem language_selection_behavior
    (chatId : ℕ) (s : Session) (text : String) (ctx : MsgCtx) :
    onMessage chatId s langLit_ar ctx =
      ⟨{ s with language := .ar }, none, none, .welcome .ar⟩ ∧
    onMessage chatId s langLit_en ctx =
      ⟨{ s with language := .en }, none, none, .welcome .en⟩ ∧
    (s.step = Step.start → text ≠ "" → text.data.head? ≠ some '/' →
     text ≠ langLit_ar → text ≠ langLit_en →
     text ≠ l_business_register s.language →
     text ≠ l_create_payment s.language →
     text ≠ l_view_dashboard s.language →
     text ≠ l_help s.language → text ≠ l_settings s.language →
     onMessage chatId s text ctx = ⟨s, none, none, .noReply⟩) := by
  refine ⟨?_, ?_, ?_⟩
  · unfold onMessage
    rw [if_neg (by decide), if_pos rfl]
  · unfold onMessage
    rw [if_neg (by decide), if_neg (by decide), if_pos rfl]
  · intro hstep h1 h2 h3 h4 h5 h6 h7 h8 h9
    unfold onMessage
    rw [if_neg (by simp [h1, h2]), if_neg h3, if_neg h4, if_neg h5,
        if_neg (by simp [hstep]), if_neg (by simp [hstep]), if_neg h6,
        if_neg (by simp [hstep]), if_neg (by simp [hstep]), if_neg h7,
        if_neg h8, if_neg h9]

/-- Witness for C6: a fresh session in the `start` step ignores an
unrecognised greeting. -/
theorem language_selection_behavior_witness :
    onMessage 1 ⟨Lang.en, Step.start, none, none⟩ "hello" ctx0 =
      ⟨⟨Lang.en, Step.start, none, none⟩, none, none, .noReply⟩ :=
  (language_selection_behavior 1 ⟨Lang.en, Step.start, none, none⟩ "hello"
    ctx0).2.2 rfl (by decide) (by decide) (by decide) (by decide)
    (by decide) (by decide) (by decide) (by decide) (by decide)
